import Mathlib

/-!
Shallow embedding of the orqos telemetry subsystem.

Modelled source files:
* `src/metric_registry.rs` — rolling-window metric registry (`insert_sample`,
  `avg`, `max`, `record_cpu`, `record_mem`, `cpu_avg`, `mem_max`).
* `src/metric_poller.rs` — per-container poll observation
  (`poll_metrics_into_registry`, body of the per-container loop).
* `src/events.rs` — event fan-out loop (`spawn_event_fanout`): idle parking,
  attempt counter and exponential backoff.
* `src/routes/metrics.rs` — `metrics_handler` exposition built by iterating
  the CPU map.

Conventions: timestamps and durations are in seconds as naturals (`Instant` /
`Duration` are opaque monotone time points in the source); `f64` sample values
are modelled as rationals (no NaN arises from the poller's arithmetic, so the
NaN filter in `max` is vacuous in the model); `u64` counters are naturals, with
Rust's `saturating_sub` being truncated natural subtraction.
-/

namespace Orqos

/-! Rolling-window registry, from `src/metric_registry.rs`. -/

/-- MAX_WINDOW: keep at most this many seconds of samples in each deque. -/
def MAX_WINDOW : ℕ := 60

/-- Sample: a `(timestamp, value)` pair as stored in a window deque. -/
abbrev Sample : Type := ℕ × ℚ

/-- Window: one deque of samples; the list front is the deque front (oldest). -/
abbrev Window : Type := List Sample

/-- MetricMap: the `DashMap<String, VecDeque<…>>` as an association list. -/
abbrev MetricMap : Type := List (String × Window)

/-- insert_sample: push `(now, value)` at the back, then pop expired samples
from the front, stopping at the first sample younger than `MAX_WINDOW`. -/
def insert_sample (now : ℕ) (q : Window) (value : ℚ) : Window :=
  (q ++ [(now, value)]).dropWhile (fun s => decide (now - s.1 > MAX_WINDOW))

/-- scannedSamples: the samples visited by the backward scan of `avg` / `max`:
iterate the deque from the most recent sample backward and stop at the first
sample with `now - timestamp > window`. -/
def scannedSamples (now window : ℕ) (q : Window) : List Sample :=
  q.reverse.takeWhile (fun s => decide (now - s.1 ≤ window))

/-- avg: mean of the scanned samples, `none` for an unknown key or when no
sample was scanned (`(n > 0).then(|| sum / n)` in the source). -/
def avg (map : MetricMap) (id : String) (now window : ℕ) : Option ℚ :=
  (map.lookup id).bind fun q =>
    let sc := scannedSamples now window q
    if 0 < sc.length then some ((sc.map Prod.snd).sum / (sc.length : ℚ)) else none

/-- windowMax: maximum value among the scanned samples, `none` for an unknown
key or when none was scanned; the source's NaN filter drops nothing here since
rational values model the finite doubles the poller produces. -/
def windowMax (map : MetricMap) (id : String) (now window : ℕ) : Option ℚ :=
  (map.lookup id).bind fun q =>
    ((scannedSamples now window q).map Prod.snd).max?

/-- updateWindow: `map.entry(id).or_default()` followed by `insert_sample` on
the entry's deque. -/
def updateWindow (m : MetricMap) (id : String) (now : ℕ) (v : ℚ) : MetricMap :=
  match m.lookup id with
  | some _ => m.map fun e => if e.1 = id then (e.1, insert_sample now e.2 v) else e
  | none => m ++ [(id, insert_sample now [] v)]

/-- MetricRegistry: the two rolling-window stores. -/
structure MetricRegistry where
  cpu : MetricMap
  mem : MetricMap

/-- record_cpu on the registry. -/
def record_cpu (r : MetricRegistry) (id : String) (now : ℕ) (usage : ℚ) :
    MetricRegistry :=
  { r with cpu := updateWindow r.cpu id now usage }

/-- record_mem on the registry (`bytes as f64`). -/
def record_mem (r : MetricRegistry) (id : String) (now : ℕ) (bytes : ℕ) :
    MetricRegistry :=
  { r with mem := updateWindow r.mem id now (bytes : ℚ) }

/-- cpu_avg on the registry. -/
def cpu_avg (r : MetricRegistry) (id : String) (now window : ℕ) : Option ℚ :=
  avg r.cpu id now window

/-- mem_max on the registry (the `as u64` narrowing is kept rational). -/
def mem_max (r : MetricRegistry) (id : String) (now window : ℕ) : Option ℚ :=
  windowMax r.mem id now window

/-! Poller, from `src/metric_poller.rs`. -/

/-- CpuUsageStats: the `cpu_usage` object of a stats response; every field is
optional in the wire format. -/
structure CpuUsageStats where
  total_usage : Option ℕ
  percpu_usage : Option (List ℕ)

/-- CpuStats: the `cpu_stats` object of a stats response. -/
structure CpuStats where
  cpu_usage : Option CpuUsageStats
  system_cpu_usage : Option ℕ

/-- MemoryStats: the `memory_stats` object of a stats response. -/
structure MemoryStats where
  usage : Option ℕ

/-- Stats: one successful one-shot stats response body. -/
structure Stats where
  cpu_stats : Option CpuStats
  memory_stats : Option MemoryStats

/-- CpuSnapshot from `src/state.rs`: last-seen cumulative counters. -/
structure CpuSnapshot where
  total_usage : ℕ
  system_usage : ℕ

/-- SnapMap: the `HashMap<String, CpuSnapshot>` as an association list. -/
abbrev SnapMap : Type := List (String × CpuSnapshot)

/-- insertSnap: `HashMap::insert` semantics on the association list. -/
def insertSnap (m : SnapMap) (id : String) (p : CpuSnapshot) : SnapMap :=
  match m.lookup id with
  | some _ => m.map fun e => if e.1 = id then (e.1, p) else e
  | none => m ++ [(id, p)]

/-- ObsResult: the effects of one per-container iteration of the poll loop:
which CPU fraction was recorded (if any), which memory value was recorded
(if any), and the snapshot stored for the id (`none` when the iteration hit a
`continue` before the snapshot insert). -/
structure ObsResult where
  cpuRecord : Option ℚ
  memRecord : Option ℕ
  newSnapshot : Option CpuSnapshot

/-- observeContainer: the body of the per-container loop in
`poll_metrics_into_registry`, for a successful stats response `s` and previous
snapshot `prev`.  Each missing field takes the corresponding `continue` (except
`total_usage`, which defaults to 0); `saturating_sub` is natural subtraction;
the fraction is recorded only when both deltas are positive; the snapshot is
stored whenever the four CPU fields were present. -/
def observeContainer (prev : Option CpuSnapshot) (s : Stats) : ObsResult :=
  match s.cpu_stats with
  | none => ⟨none, none, none⟩
  | some cpuSt =>
    match cpuSt.cpu_usage with
    | none => ⟨none, none, none⟩
    | some usage =>
      match cpuSt.system_cpu_usage with
      | none => ⟨none, none, none⟩
      | some sys =>
        let total := usage.total_usage.getD 0
        match usage.percpu_usage with
        | none => ⟨none, none, none⟩
        | some percpu =>
          let cores : ℚ := ((max percpu.length 1 : ℕ) : ℚ)
          let cpuRec : Option ℚ :=
            match prev with
            | none => none
            | some p =>
              let cpu_delta := total - p.total_usage
              let sys_delta := sys - p.system_usage
              if 0 < sys_delta ∧ 0 < cpu_delta then
                some (((cpu_delta : ℚ) / (sys_delta : ℚ)) * cores)
              else none
          let memRec : Option ℕ :=
            match s.memory_stats with
            | none => none
            | some memSt =>
              match memSt.usage with
              | none => none
              | some bytes => some bytes
          ⟨cpuRec, memRec, some ⟨total, sys⟩⟩

/-- pollObserve: one per-container iteration applied to the shared state: the
CPU record (when any) goes into the registry first, then the snapshot is
stored, then the memory record (when any). -/
def pollObserve (r : MetricRegistry) (snaps : SnapMap) (id : String) (now : ℕ)
    (s : Stats) : MetricRegistry × SnapMap :=
  let o := observeContainer (snaps.lookup id) s
  let r1 := match o.cpuRecord with
    | some v => record_cpu r id now v
    | none => r
  let snaps1 := match o.newSnapshot with
    | some p => insertSnap snaps id p
    | none => snaps
  let r2 := match o.memRecord with
    | some b => record_mem r1 id now b
    | none => r1
  (r2, snaps1)

/-! Event fan-out, from `src/events.rs`. -/

/-- fanoutStep: one iteration of the fan-out loop, as a function of the attempt
counter, the broadcast receiver count seen at the top of the loop, and whether
at least one event was received before the subscription stream ended.  Returns
`(new attempt counter, subscribed this iteration, seconds slept)`. -/
def fanoutStep (attempt receiverCount : ℕ) (receivedAny : Bool) :
    ℕ × Bool × ℕ :=
  if receiverCount = 0 then (attempt, false, 1)
  else
    let a1 := attempt + 1
    let a2 := if receivedAny then 0 else a1
    (a2, true, 2 ^ min a2 5)

/-- fanoutTrace: run the loop over a list of per-iteration observations
`(receiver count, received any event)`, collecting for each iteration whether a
subscription was opened and how long the task slept. -/
def fanoutTrace : ℕ → List (ℕ × Bool) → List (Bool × ℕ)
  | _, [] => []
  | attempt, i :: rest =>
    let r := fanoutStep attempt i.1 i.2
    (r.2.1, r.2.2) :: fanoutTrace r.1 rest

/-! Metrics exposition, from `src/routes/metrics.rs`. -/

/-- MetricLine: one line of the plain-text exposition, abstracted from its
textual formatting. -/
inductive MetricLine where
  | cpuAvg (id : String) (value : ℚ)
  | memMax (id : String) (value : ℚ)
deriving DecidableEq

/-- containerId: the container label of an exposition line. -/
def MetricLine.containerId : MetricLine → String
  | .cpuAvg id _ => id
  | .memMax id _ => id

/-- metrics_handler: iterate the CPU map's entries; for each key emit the
10-second CPU average and the 10-second memory maximum when present. -/
def metrics_handler (r : MetricRegistry) (now : ℕ) : List MetricLine :=
  r.cpu.flatMap fun e =>
    (match cpu_avg r e.1 now 10 with
     | some a => [MetricLine.cpuAvg e.1 a]
     | none => []) ++
    (match mem_max r e.1 now 10 with
     | some m => [MetricLine.memMax e.1 m]
     | none => [])

/-! Concrete stats responses used as test inputs. -/

/-- statsFull: a stats response with every CPU and memory field present. -/
def statsFull : Stats :=
  { cpu_stats := some
      { cpu_usage := some { total_usage := some 1000, percpu_usage := some [1, 2] },
        system_cpu_usage := some 10000 },
    memory_stats := some { usage := some 123 } }

/-- statsNoMem: all CPU fields present, `memory_stats` absent. -/
def statsNoMem : Stats :=
  { cpu_stats := some
      { cpu_usage := some { total_usage := some 1500, percpu_usage := some [1, 2] },
        system_cpu_usage := some 11000 },
    memory_stats := none }

/-- statsOnlyMem: memory usage present but `cpu_stats` absent. -/
def statsOnlyMem : Stats :=
  { cpu_stats := none, memory_stats := some { usage := some 77 } }

/-- statsNoPercpu: CPU counters present but the per-core usage list absent. -/
def statsNoPercpu : Stats :=
  { cpu_stats := some
      { cpu_usage := some { total_usage := some 2000, percpu_usage := none },
        system_cpu_usage := some 20000 },
    memory_stats := some { usage := some 42 } }

/-! Helper lemmas. -/

/-- takeWhile is monotone in the predicate, as a sublist. -/
lemma takeWhile_sublist_of_imp {α : Type} {p q : α → Bool}
    (h : ∀ x, p x = true → q x = true) (l : List α) :
    (l.takeWhile p).Sublist (l.takeWhile q) := by
  induction l with
  | nil => simp
  | cons a l ih =>
    by_cases hp : p a = true
    · have hq := h a hp
      simpa [List.takeWhile_cons, hp, hq] using ih.cons₂ a
    · rw [List.takeWhile_cons]
      simp only [hp]
      exact List.nil_sublist _

/-- Every sample surviving the eviction scan of `insert_sample` is within the
retention horizon, provided the deque was in timestamp order. -/
lemma mem_dropWhile_age_le (now W : ℕ) (l : List Sample)
    (hs : l.Pairwise (fun a b : Sample => a.1 ≤ b.1)) :
    ∀ x ∈ l.dropWhile (fun s => decide (now - s.1 > W)), now - x.1 ≤ W := by
  induction l with
  | nil => simp
  | cons a l ih =>
    rcases List.pairwise_cons.mp hs with ⟨ha, hl⟩
    intro x hx
    rw [List.dropWhile_cons] at hx
    by_cases hp : now - a.1 > W
    · simp [hp] at hx
      exact ih hl x hx
    · simp [hp] at hx
      rcases hx with rfl | hx
      · omega
      · have hab := ha x hx
        omega

/-- On a list where the scan predicate can only switch from true to false,
takeWhile and filter agree. -/
lemma takeWhile_eq_filter_of_pairwise {α : Type} {p : α → Bool} (l : List α)
    (h : l.Pairwise (fun a b => p a = false → p b = false)) :
    l.takeWhile p = l.filter p := by
  induction l with
  | nil => simp
  | cons a l ih =>
    rcases List.pairwise_cons.mp h with ⟨ha, hl⟩
    by_cases hp : p a = true
    · simp [List.takeWhile_cons, List.filter_cons, hp, ih hl]
    · have hpa : p a = false := by simpa using hp
      have hnil : l.filter p = [] :=
        List.filter_eq_nil_iff.mpr fun x hx => by simp [ha x hx hpa]
      simp [List.takeWhile_cons, List.filter_cons, hpa, hnil]

/-- On a timestamp-sorted deque the backward scan visits exactly the in-window
samples, in reversed order. -/
lemma scannedSamples_eq_filter (now window : ℕ) (q : Window)
    (hs : q.Pairwise (fun a b : Sample => a.1 ≤ b.1)) :
    scannedSamples now window q =
      (q.filter (fun s => decide (now - s.1 ≤ window))).reverse := by
  have hrev : q.reverse.Pairwise (fun a b : Sample => b.1 ≤ a.1) :=
    List.pairwise_reverse.mpr hs
  have hmono : q.reverse.Pairwise
      (fun a b : Sample => decide (now - a.1 ≤ window) = false →
        decide (now - b.1 ≤ window) = false) := by
    refine hrev.imp ?_
    intro a b hba hfa
    simp only [decide_eq_false_iff_not] at hfa ⊢
    omega
  rw [scannedSamples, takeWhile_eq_filter_of_pairwise q.reverse hmono,
    List.filter_reverse]

/-- Key absent from an association list means no entry carries that key. -/
lemma lookup_none_keys {β : Type} (l : List (String × β)) (a : String)
    (h : l.lookup a = none) : ∀ e ∈ l, e.1 ≠ a := by
  induction l with
  | nil => simp
  | cons x t ih =>
    obtain ⟨k, b⟩ := x
    by_cases hk : a = k
    · subst hk
      simp [List.lookup] at h
    · have hbeq : (a == k) = false := beq_eq_false_iff_ne.mpr hk
      have h' : t.lookup a = none := by
        simpa [List.lookup, hbeq] using h
      intro e he
      rcases List.mem_cons.mp he with rfl | he
      · simpa using Ne.symm hk
      · exact ih h' e he

/-! Claim theorems. -/

/-- C4: for a window in non-decreasing timestamp order whose timestamps do not
exceed the insertion time, after `insert_sample` every retained sample is at
most `MAX_WINDOW` (60s) old, the retained samples are still in non-decreasing
timestamp order, and all timestamps are still bounded by the insertion time
(so the invariant is preserved across any sequence of records with
non-decreasing timestamps). -/
theorem insert_sample_retention_sorted (now : ℕ) (q : Window) (v : ℚ)
    (hs : q.Pairwise (fun a b : Sample => a.1 ≤ b.1))
    (hnow : ∀ s ∈ q, s.1 ≤ now) :
    (∀ s ∈ insert_sample now q v, now - s.1 ≤ MAX_WINDOW) ∧
    ((insert_sample now q v).Pairwise (fun a b : Sample => a.1 ≤ b.1)) ∧
    (∀ s ∈ insert_sample now q v, s.1 ≤ now) := by
  have happ : (q ++ [(now, v)]).Pairwise (fun a b : Sample => a.1 ≤ b.1) := by
    rw [List.pairwise_append]
    refine ⟨hs, List.pairwise_singleton _ _, ?_⟩
    intro a ha b hb
    rcases List.mem_singleton.mp hb with rfl
    exact hnow a ha
  have hsub : (insert_sample now q v).Sublist (q ++ [(now, v)]) :=
    (List.dropWhile_suffix _).sublist
  refine ⟨mem_dropWhile_age_le now MAX_WINDOW _ happ, happ.sublist hsub, ?_⟩
  intro s hsm
  have hsm2 : s ∈ q ++ [(now, v)] := hsub.subset hsm
  rcases List.mem_append.mp hsm2 with hq | hone
  · exact hnow s hq
  · rcases List.mem_singleton.mp hone with rfl
    exact Nat.le_refl _

/-- C4 witness: a concrete sorted window with a stale head sample; the
retained sample (50, 2) is within the horizon and the result stays sorted. -/
theorem insert_sample_retention_sorted_witness :
    ((50, 2) ∈ insert_sample 70 [((0 : ℕ), (1 : ℚ)), (50, 2)] 3) ∧
    70 - ((50 : ℕ), (2 : ℚ)).1 ≤ MAX_WINDOW ∧
    ((insert_sample 70 [((0 : ℕ), (1 : ℚ)), (50, 2)] 3).Pairwise
      (fun a b : Sample => a.1 ≤ b.1)) :=
  ⟨by decide,
    (insert_sample_retention_sorted 70 [(0, 1), (50, 2)] 3
      (by decide) (by decide)).1 (50, 2) (by decide),
    (insert_sample_retention_sorted 70 [(0, 1), (50, 2)] 3
      (by decide) (by decide)).2.1⟩

/-- C9: the backward scan with a smaller query window visits a subset of the
samples visited with any larger window, it only visits samples within the
window, and enlarging the window never decreases the number of samples
visited. -/
theorem scanned_window_mono (now w1 w2 : ℕ) (hw : w1 ≤ w2) (q : Window) :
    (∀ s ∈ scannedSamples now w1 q, s ∈ scannedSamples now w2 q) ∧
    (∀ s ∈ scannedSamples now w1 q, now - s.1 ≤ w1) ∧
    (scannedSamples now w1 q).length ≤ (scannedSamples now w2 q).length := by
  have himp : ∀ x : Sample,
      decide (now - x.1 ≤ w1) = true → decide (now - x.1 ≤ w2) = true := by
    intro x hx
    simp only [decide_eq_true_eq] at hx ⊢
    omega
  have hsub := takeWhile_sublist_of_imp himp q.reverse
  simp only [scannedSamples]
  refine ⟨fun s hsh => hsub.subset hsh, fun s hsh => ?_, hsub.length_le⟩
  have hmem := List.mem_takeWhile_imp hsh
  simpa using hmem

/-- C9 witness: concrete windows 3 and 7 on a three-sample deque. -/
theorem scanned_window_mono_witness :
    (scannedSamples 10 3 [((1 : ℕ), (5 : ℚ)), (6, 6), (9, 7)]).length ≤
      (scannedSamples 10 7 [((1 : ℕ), (5 : ℚ)), (6, 6), (9, 7)]).length :=
  (scanned_window_mono 10 3 7 (by decide) [(1, 5), (6, 6), (9, 7)]).2.2

/-- C5: with the deque in timestamp order, the backward scan of avg visits
exactly the in-window samples, so avg returns none precisely when the key is
unknown or no sample satisfies `now - timestamp ≤ window`, and otherwise
returns the arithmetic mean of the in-window samples. -/
theorem avg_window_mean_spec (m : MetricMap) (id : String) (now window : ℕ)
    (hs : ∀ q, m.lookup id = some q →
      q.Pairwise (fun a b : Sample => a.1 ≤ b.1)) :
    (avg m id now window = none ↔
      ∀ q, m.lookup id = some q →
        q.filter (fun s => decide (now - s.1 ≤ window)) = []) ∧
    (∀ q, m.lookup id = some q →
      q.filter (fun s => decide (now - s.1 ≤ window)) ≠ [] →
      avg m id now window =
        some ((((q.filter (fun s => decide (now - s.1 ≤ window))).map
            Prod.snd).sum) /
          (((q.filter (fun s => decide (now - s.1 ≤ window))).length : ℚ)))) := by
  cases hm : m.lookup id with
  | none =>
    refine ⟨⟨fun _ q hq => Option.noConfusion hq, fun _ => by simp [avg, hm]⟩,
      fun q hq => Option.noConfusion hq⟩
  | some q =>
    have hsq := hs q hm
    have hfe := scannedSamples_eq_filter now window q hsq
    have havg : avg m id now window =
        if 0 < (q.filter (fun s => decide (now - s.1 ≤ window))).length then
          some ((((q.filter (fun s => decide (now - s.1 ≤ window))).map
              Prod.snd).sum) /
            (((q.filter (fun s => decide (now - s.1 ≤ window))).length : ℚ)))
        else none := by
      rw [avg, hm]
      simp [hfe, List.sum_reverse]
    constructor
    · constructor
      · intro hnone q2 hq2
        have hq2q : q2 = q := (Option.some.inj hq2).symm
        subst hq2q
        rw [havg] at hnone
        by_cases hlen :
            0 < (q2.filter (fun s => decide (now - s.1 ≤ window))).length
        · rw [if_pos hlen] at hnone
          cases hnone
        · exact List.length_eq_zero.mp (by omega)
      · intro hall
        have hnil := hall q rfl
        rw [havg, hnil]
        simp
    · intro q2 hq2 hne
      have hq2q : q2 = q := (Option.some.inj hq2).symm
      subst hq2q
      have hlen : 0 < (q2.filter (fun s => decide (now - s.1 ≤ window))).length :=
        List.length_pos.mpr hne
      rw [havg, if_pos hlen]

/-- C5 witness: a two-sample deque entirely inside a 10-second window has
average 3/2. -/
theorem avg_window_mean_spec_witness :
    avg [("c1", [((0 : ℕ), (1 : ℚ)), (4, 2)])] "c1" 5 10 = some (3 / 2) := by
  have h := (avg_window_mean_spec [("c1", [((0 : ℕ), (1 : ℚ)), (4, 2)])]
      "c1" 5 10 (by
        intro q hq
        simp [List.lookup] at hq
        subst hq
        decide)).2
    [((0 : ℕ), (1 : ℚ)), (4, 2)] (by simp [List.lookup]) (by decide)
  rw [h]
  norm_num

/-- C6: with at least one receiver, a subscription attempt ending in error
with no event received sleeps 2^min(attempt+1, 5) seconds (the counter having
been incremented for the attempt); the first failure sleeps 2 seconds; the
sleep never exceeds 32 seconds; and an attempt during which at least one event
was received resets the counter to 0. -/
theorem fanout_backoff_spec (attempt rc : ℕ) (hrc : rc ≠ 0) :
    ((fanoutStep attempt rc false).2.2 = 2 ^ min (attempt + 1) 5) ∧
    ((fanoutStep 0 rc false).2.2 = 2) ∧
    ((fanoutStep attempt rc false).2.2 ≤ 32) ∧
    ((fanoutStep attempt rc true).1 = 0) := by
  refine ⟨by simp [fanoutStep, hrc], ?_, ?_, by simp [fanoutStep, hrc]⟩
  · simp [fanoutStep, hrc]
  · have h1 : (fanoutStep attempt rc false).2.2 = 2 ^ min (attempt + 1) 5 := by
      simp [fanoutStep, hrc]
    rw [h1]
    calc 2 ^ min (attempt + 1) 5
        ≤ 2 ^ 5 := Nat.pow_le_pow_right (by norm_num) (min_le_right _ _)
      _ = 32 := by norm_num

/-- C6 witness: counter at 3 with one receiver: an empty errored attempt
sleeps 16 seconds, a first failure sleeps 2 seconds, and receiving an event
resets the counter. -/
theorem fanout_backoff_spec_witness :
    ((fanoutStep 3 1 false).2.2 = 2 ^ min (3 + 1) 5) ∧
    ((fanoutStep 0 1 false).2.2 = 2) ∧
    ((fanoutStep 3 1 false).2.2 ≤ 32) ∧
    ((fanoutStep 3 1 true).1 = 0) :=
  fanout_backoff_spec 3 1 (by decide)

/-- C7: over any run of loop iterations during which the receiver count stays
zero, the task never opens a subscription and every iteration sleeps exactly
1 second. -/
theorem fanout_idle_no_subscribe (attempt : ℕ) (inputs : List (ℕ × Bool))
    (h : ∀ i ∈ inputs, i.1 = 0) :
    ∀ o ∈ fanoutTrace attempt inputs, o.1 = false ∧ o.2 = 1 := by
  induction inputs generalizing attempt with
  | nil => simp [fanoutTrace]
  | cons i rest ih =>
    have hi : i.1 = 0 := h i (List.mem_cons_self i rest)
    intro o ho
    simp only [fanoutTrace] at ho
    rcases List.mem_cons.mp ho with rfl | ho
    · constructor <;> simp [fanoutStep, hi]
    · exact ih _ (fun j hj => h j (List.mem_cons_of_mem i hj)) o ho

/-- C7 witness: two idle iterations with zero receivers produce an output, and
the theorem shows each output means no subscription and a 1-second sleep. -/
theorem fanout_idle_no_subscribe_witness :
    ((false, 1) ∈ fanoutTrace 2 [(0, false), (0, true)]) ∧
    (((false : Bool), (1 : ℕ)).1 = false ∧ ((false : Bool), (1 : ℕ)).2 = 1) :=
  ⟨by decide,
    fanout_idle_no_subscribe 2 [(0, false), (0, true)] (by decide)
      (false, 1) (by decide)⟩

/-- A first observation (no prior snapshot) never produces a CPU record. -/
lemma observe_no_prev_cpuRecord (s : Stats) :
    (observeContainer none s).cpuRecord = none := by
  rcases s with ⟨cs, ms⟩
  rcases cs with _ | ⟨cu, sys⟩
  · rfl
  · rcases cu with _ | u
    · rfl
    · rcases sys with _ | y
      · rfl
      · rcases u with ⟨t, pc⟩
        rcases pc with _ | l
        · rfl
        · rfl

/-- When the observation produces no CPU record, the CPU map is untouched. -/
lemma pollObserve_cpu_unchanged (r : MetricRegistry) (snaps : SnapMap)
    (id : String) (now : ℕ) (s : Stats)
    (hobs : (observeContainer (snaps.lookup id) s).cpuRecord = none) :
    (pollObserve r snaps id now s).1.cpu = r.cpu := by
  cases hm : (observeContainer (snaps.lookup id) s).memRecord <;>
    simp [pollObserve, hobs, hm, record_mem]

/-- C1 counterexample: with no prior snapshot and a fully populated stats
response, the poll observation leaves the CPU map without any entry for the
container — in particular no 0.0 sample is recorded, contrary to the claim. -/
theorem first_observation_cpu_cex :
    ((pollObserve ⟨[], []⟩ [] "c1" 5 statsFull).1.cpu.lookup "c1") = none := by
  rfl

/-- C1 amended: for a container with no prior CPU snapshot, the poll
observation records no CPU sample at all (the CPU map is left unchanged); the
snapshot is merely stored, so a first CPU sample can only appear from the
second observation on. -/
theorem first_observation_records_no_cpu (r : MetricRegistry) (snaps : SnapMap)
    (id : String) (now : ℕ) (s : Stats) (h : snaps.lookup id = none) :
    (pollObserve r snaps id now s).1.cpu = r.cpu := by
  apply pollObserve_cpu_unchanged
  rw [h]
  exact observe_no_prev_cpuRecord s

/-- C1 amended witness: a first observation leaves a pre-existing CPU map
exactly as it was. -/
theorem first_observation_records_no_cpu_witness :
    (pollObserve ⟨[("c9", [((0 : ℕ), (1 : ℚ))])], []⟩ [] "c1" 5
      statsFull).1.cpu = [("c9", [((0 : ℕ), (1 : ℚ))])] :=
  first_observation_records_no_cpu ⟨[("c9", [(0, 1)])], []⟩ [] "c1" 5
    statsFull rfl

/-- C2 counterexample: a successful stats response missing the memory field
records no memory sample at all (no 0 default), and a response missing the
CPU fields records no memory sample either — memory recording is neither
unconditional nor independent of the CPU fields. -/
theorem mem_record_unconditional_cex :
    ((pollObserve ⟨[], []⟩ [] "c1" 5 statsNoMem).1.mem.lookup "c1" = none) ∧
    ((pollObserve ⟨[], []⟩ [] "c1" 5 statsOnlyMem).1.mem.lookup "c1" = none) :=
  ⟨rfl, rfl⟩

/-- C2 amended: a memory sample is recorded exactly when the four CPU fields
(cpu_stats, cpu_usage, system_cpu_usage, percpu_usage) are all present and the
memory usage field is present, and the recorded value is then the raw memory
usage; when any of these fields is absent the container is skipped with no
memory sample and no 0 default. -/
theorem mem_record_iff_fields (prev : Option CpuSnapshot) (s : Stats) (b : ℕ) :
    (observeContainer prev s).memRecord = some b ↔
      (∃ c, s.cpu_stats = some c ∧
        (∃ u, c.cpu_usage = some u ∧ u.percpu_usage.isSome = true) ∧
        c.system_cpu_usage.isSome = true) ∧
      (∃ m, s.memory_stats = some m ∧ m.usage = some b) := by
  rcases s with ⟨cs, ms⟩
  rcases cs with _ | ⟨cu, sys⟩
  · simp [observeContainer]
  · rcases cu with _ | u
    · simp [observeContainer]
    · rcases sys with _ | y
      · simp [observeContainer]
      · rcases u with ⟨t, pc⟩
        rcases pc with _ | l
        · simp [observeContainer]
        · rcases ms with _ | m
          · simp [observeContainer]
          · rcases m with ⟨mu⟩
            rcases mu with _ | bb
            · simp [observeContainer]
            · simp [observeContainer]

/-- C3 counterexample: with a prior snapshot and unchanged counters (both
deltas zero), no CPU sample is recorded at all — the CPU map stays empty
rather than receiving a 0.0 sample as the claim states. -/
theorem zero_delta_cex :
    ((pollObserve ⟨[], []⟩ [("c1", ⟨1000, 10000⟩)] "c1" 5
      statsFull).1.cpu.lookup "c1") = none := by
  rfl

/-- C3 amended: when a prior snapshot exists and the saturating system delta
is zero or the saturating CPU delta is zero, no CPU sample is recorded for
that cycle — so in particular nothing negative is recorded and no division by
zero occurs. -/
theorem zero_delta_records_nothing (r : MetricRegistry) (snaps : SnapMap)
    (id : String) (now : ℕ) (s : Stats) (p : CpuSnapshot) (c : CpuStats)
    (u : CpuUsageStats) (y : ℕ) (hp : snaps.lookup id = some p)
    (hc : s.cpu_stats = some c) (hu : c.cpu_usage = some u)
    (hy : c.system_cpu_usage = some y)
    (hdelta : y - p.system_usage = 0 ∨ u.total_usage.getD 0 - p.total_usage = 0) :
    (pollObserve r snaps id now s).1.cpu = r.cpu := by
  apply pollObserve_cpu_unchanged
  rw [hp]
  simp only [observeContainer, hc, hu, hy]
  cases hpc : u.percpu_usage with
  | none => simp
  | some l =>
    simp only [hpc]
    simp
    omega

/-- C3 amended witness: stalled counters between two cycles leave the CPU map
empty. -/
theorem zero_delta_records_nothing_witness :
    (pollObserve ⟨[], []⟩ [("c1", ⟨1000, 10000⟩)] "c1" 9 statsFull).1.cpu = [] :=
  zero_delta_records_nothing ⟨[], []⟩ [("c1", ⟨1000, 10000⟩)] "c1" 9 statsFull
    ⟨1000, 10000⟩
    { cpu_usage := some { total_usage := some 1000, percpu_usage := some [1, 2] },
      system_cpu_usage := some 10000 }
    { total_usage := some 1000, percpu_usage := some [1, 2] } 10000
    rfl rfl rfl rfl (Or.inl rfl)

/-- C8 counterexample: with a prior snapshot and strictly increased counters
but an absent per-core usage field, the container is skipped entirely — no CPU
sample is derived, no memory sample is recorded, and no snapshot is stored —
contrary to the claimed fallback to 1 core with the sample still recorded. -/
theorem missing_percpu_cex :
    observeContainer (some ⟨1000, 10000⟩) statsNoPercpu =
      { cpuRecord := none, memRecord := none, newSnapshot := none } := rfl

/-- C8 amended: the fallback to 1 core applies when the per-core usage list is
present but empty — the fraction is then derived with cores = 1 and recorded —
while an absent per-core usage field makes the container be skipped with no
sample at all. -/
theorem percpu_fallback_empty_list (p : CpuSnapshot) (total y : ℕ)
    (ms : Option MemoryStats)
    (hsd : 0 < y - p.system_usage) (hcd : 0 < total - p.total_usage) :
    ((observeContainer (some p)
        { cpu_stats := some
            { cpu_usage := some
                { total_usage := some total, percpu_usage := some [] },
              system_cpu_usage := some y },
          memory_stats := ms }).cpuRecord =
      some ((((total - p.total_usage : ℕ) : ℚ) /
        ((y - p.system_usage : ℕ) : ℚ)) * 1)) ∧
    (∀ prev t2 y2 ms2,
      observeContainer prev
        { cpu_stats := some
            { cpu_usage := some { total_usage := t2, percpu_usage := none },
              system_cpu_usage := some y2 },
          memory_stats := ms2 } =
        { cpuRecord := none, memRecord := none, newSnapshot := none }) := by
  constructor
  · simp [observeContainer, hsd, hcd]
  · intro prev t2 y2 ms2
    rfl

/-- C8 amended witness: an empty per-core list with increased counters yields
the fraction with cores = 1. -/
theorem percpu_fallback_empty_list_witness :
    (observeContainer (some ⟨1000, 10000⟩)
        { cpu_stats := some
            { cpu_usage := some
                { total_usage := some 1500, percpu_usage := some [] },
              system_cpu_usage := some 11000 },
          memory_stats := none }).cpuRecord =
      some ((((1500 - 1000 : ℕ) : ℚ) / ((11000 - 10000 : ℕ) : ℚ)) * 1) :=
  (percpu_fallback_empty_list ⟨1000, 10000⟩ 1500 11000 none
    (by decide) (by decide)).1

/-- C10: a container id absent from the CPU map — exactly its state after the
very first successful observation, when only a memory sample was recorded —
never appears in the metrics exposition, because the handler iterates only the
CPU map's entries. -/
theorem metrics_absent_without_cpu_samples (r : MetricRegistry) (now : ℕ)
    (id : String) (hcpu : r.cpu.lookup id = none)
    (_hmem : (r.mem.lookup id).isSome = true) :
    ∀ line ∈ metrics_handler r now, line.containerId ≠ id := by
  intro line hline
  rw [metrics_handler] at hline
  rcases List.mem_flatMap.mp hline with ⟨e, he, hmemb⟩
  have hne := lookup_none_keys r.cpu id hcpu e he
  rcases List.mem_append.mp hmemb with h1 | h1
  · cases hc : cpu_avg r e.1 now 10 with
    | none =>
      rw [hc] at h1
      simp at h1
    | some a =>
      rw [hc] at h1
      simp at h1
      subst h1
      simpa [MetricLine.containerId] using hne
  · cases hc : mem_max r e.1 now 10 with
    | none =>
      rw [hc] at h1
      simp at h1
    | some v =>
      rw [hc] at h1
      simp at h1
      subst h1
      simpa [MetricLine.containerId] using hne

/-- C10 witness: a registry holding only memory samples for container m1 and
CPU samples for container c2 exposes a line for c2 but none labelled m1. -/
theorem metrics_absent_without_cpu_samples_witness :
    (MetricLine.cpuAvg "c2" 1 ∈
      metrics_handler
        ⟨[("c2", [((0 : ℕ), (1 : ℚ))])], [("m1", [((0 : ℕ), (5 : ℚ))])]⟩ 3) ∧
    (MetricLine.cpuAvg "c2" 1).containerId ≠ "m1" :=
  ⟨by norm_num [metrics_handler, cpu_avg, mem_max, avg, windowMax,
      scannedSamples, List.lookup],
    metrics_absent_without_cpu_samples
      ⟨[("c2", [(0, 1)])], [("m1", [(0, 5)])]⟩ 3 "m1" (by decide) (by decide)
      (MetricLine.cpuAvg "c2" 1)
      (by norm_num [metrics_handler, cpu_avg, mem_max, avg, windowMax,
        scannedSamples, List.lookup])⟩

end Orqos
